import Mathlib

/-!
# allOrigins `app/get-page.js`: retrieval dispatcher

A shallow embedding of `getPage` and of the strategies it routes to
(`getPageInfo`, `getRawPage`, `getVilosMedia`, `getLastLog`, `getPageContents`),
with the collaborators made explicit:

* the HTTP client `got` is a function of the url and the options that either
  returns a response or raises an error (which may carry a response);
* one browser session is the record of what each awaited puppeteer step does;
* the module-level `crpCache`, the file `last.log`, the clock and the number of
  running browsers are the fields of an explicit `World`.

An `async` function becomes a function `World → Except Exn α × World`: the
promise resolves (`.ok`) or rejects (`.error`), and the world is the state it
leaves behind.
-/

namespace GetPage

/-! ## JavaScript strings -/

/-- A JavaScript string is its sequence of UTF-16 code units. -/
abbrev JSString := List Nat

/-- The string written as a literal in the source (code units of its characters). -/
def lit (s : String) : JSString := s.toList.map Char.toNat

/-- Search for `pat` in `s`, the current position being `k`:
the index of the first match, or `-1`. -/
def indexOfFrom (pat : JSString) : JSString → Nat → Int
  | [], k => if pat = [] then (k : Int) else -1
  | c :: cs, k => if pat.isPrefixOf (c :: cs) then (k : Int) else indexOfFrom pat cs (k + 1)

/-- The method `String.prototype.indexOf(pat)`. -/
def indexOf (s pat : JSString) : Int := indexOfFrom pat s 0

/-- The method `String.prototype.substr(start, length)`; `length = none` is the
one-argument call. A negative `start` counts from the end, and both numbers
are clamped to the string. -/
def substr (s : JSString) (start : Int) (length : Option Int) : JSString :=
  let size : Int := s.length
  let intStart : Int := if start < 0 then max (size + start) 0 else min start size
  let intLength : Int :=
    match length with
    | none => size
    | some l => min (max l 0) size
  let intEnd : Int := min (intStart + intLength) size
  (s.drop intStart.toNat).take (intEnd - intStart).toNat

/-! ## Values, responses and errors -/

/-- A response body, observed through the two calls the source makes on it. -/
structure Body where
  /-- The result of `body.toString()`. -/
  text : JSString
  /-- The result of `Buffer.byteLength(body)`. -/
  byteLength : Nat
deriving DecidableEq, Repr

/-- A response of the HTTP client. -/
structure Response where
  url : JSString
  statusCode : Int
  headers : List (String × JSString)
  body : Body
deriving DecidableEq, Repr

/-- An error raised by the HTTP client; `response` is present for an HTTP-level
failure and absent for a connection failure. -/
structure HttpError where
  message : JSString
  response : Option Response
deriving DecidableEq, Repr

/-- What a rejected promise carries. -/
structure Exn where
  message : JSString
deriving DecidableEq, Repr

/-- The JavaScript values that the functions of the module return. -/
inductive JSVal where
  | undefined
  | null
  | num (n : Int)
  | str (s : JSString)
  | body (b : Body)
  | error (e : HttpError)
  | obj (fields : List (String × JSVal))

namespace JSVal

/-- Property read `v[k]`. -/
def get (v : JSVal) (k : String) : JSVal :=
  match v with
  | obj fields => (fields.lookup k).getD undefined
  | _ => undefined

/-- The own property names of an object, in creation order. -/
def keys : JSVal → List String
  | obj fields => fields.map Prod.fst
  | _ => []

/-- Whether `k` is a field of `v`. -/
def hasField (v : JSVal) (k : String) : Bool := v.keys.contains k

/-- JavaScript truthiness (`if (v)`). -/
def truthy : JSVal → Bool
  | undefined => false
  | null => false
  | num n => n != 0
  | str s => !s.isEmpty
  | body _ => true
  | error _ => true
  | obj _ => true

end JSVal

open JSVal

/-- The header read `response.headers[name]`. -/
def header (response : Response) (name : String) : JSVal :=
  match response.headers.lookup name with
  | some v => str v
  | none => undefined

/-! ## Collaborators -/

/-- The options object handed to `got`. -/
structure Options where
  method : Option JSString
  decompress : Bool
deriving DecidableEq, Repr

/-- The options object handed to `puppeteer.launch`. -/
structure LaunchOptions where
  args : List JSString
  headless : Bool
  ignoreHTTPSErrors : Bool
  userDataDir : JSString
deriving DecidableEq, Repr

/-- One browser session: what each awaited puppeteer step does (`none` is
success, `some e` a rejection with `e`), the serialized markup that
`page.evaluate` yields for a url, and the time the session takes. -/
structure Session where
  launch : LaunchOptions → Option Exn
  pages : Option Exn
  setRequestInterception : Option Exn
  setViewport : Option Exn
  goto : JSString → Option Exn
  evaluate : JSString → Except Exn JSString
  close : Option Exn
  elapsed : Nat

/-- The collaborators of one `getPage` call. -/
structure Env where
  /-- The HTTP client. -/
  got : JSString → Options → Except HttpError Response
  /-- The numeric conversion `+v` of a header value; `none` is `NaN`. -/
  toNumber : JSVal → Option Int
  /-- The browser session that `puppeteer.launch` would start. -/
  session : Session

/-- An entry of the cache: the value and the time (ms) at which it expires. -/
structure CacheEntry where
  v : JSString
  t : Nat
deriving DecidableEq, Repr

/-- The mutable state around the module. -/
structure World where
  /-- The clock, `Date.now()`. -/
  now : Nat
  /-- The data of `crpCache`. -/
  crpCache : List (JSString × CacheEntry)
  /-- The content of the file `last.log`, if it exists. -/
  lastLog : Option JSString
  /-- The number of browsers launched and not closed. -/
  openBrowsers : Nat
  /-- The number of browsers launched so far. -/
  launches : Nat
deriving DecidableEq, Repr

/-- The option `stdTTL` of `crpCache`, in seconds. -/
def stdTTL : Nat := 36000

/-- The call `crpCache.get(key)`: the stored value unless the entry has expired
(`t !== 0 && t < Date.now()`), in which case the entry is deleted. -/
def crpCacheGet (key : JSString) (w : World) : JSVal × World :=
  match w.crpCache.lookup key with
  | some entry =>
    if entry.t ≠ 0 ∧ entry.t < w.now then
      (undefined, { w with crpCache := w.crpCache.filter (fun p => p.1 != key) })
    else (str entry.v, w)
  | none => (undefined, w)

/-- The call `crpCache.set(key, value)`: the entry lives `stdTTL` seconds. -/
def crpCacheSet (key : JSString) (value : JSString) (w : World) : World :=
  { w with crpCache :=
      (key, { v := value, t := w.now + stdTTL * 1000 }) ::
        w.crpCache.filter (fun p => p.1 != key) }

/-! ## The functions of `get-page.js` -/

/-- What `request` resolves to: `{ response }`, `{ response, content }` or
`{ error }`. -/
inductive Fetched where
  | head (response : Response)
  | full (response : Response) (content : Body)
  | failed (error : HttpError)
deriving DecidableEq, Repr

/-- Source `processContent`. -/
def processContent (response : Response) : Fetched :=
  Fetched.full response response.body

/-- Source `request(url, requestMethod, raw)`: every error of the client is
caught and returned. -/
def request (env : Env) (url : JSString) (requestMethod : Option JSString) (raw : Bool) :
    Fetched :=
  let options : Options := { method := requestMethod, decompress := !raw }
  match env.got url options with
  | .ok response =>
    if options.method = some (lit "HEAD") then Fetched.head response
    else processContent response
  | .error err => Fetched.failed err

/-- Source `processError`. -/
def processError (e : HttpError) : JSVal :=
  match e.response with
  | none => obj [("contents", null), ("status", obj [("error", error e)])]
  | some response =>
    let contentLength := response.body.byteLength
    obj [("contents", str response.body.text),
         ("status", obj [("url", str response.url),
                         ("http_code", num response.statusCode),
                         ("content_type", header response "content-type"),
                         ("content_length", num contentLength)])]

/-- The expression `+response.headers['content-length'] || -1`. -/
def contentLengthOr (env : Env) (response : Response) : JSVal :=
  match env.toNumber (header response "content-length") with
  | none => num (-1)
  | some n => if n = 0 then num (-1) else num n

/-- The `TypeError` that reading a property of `undefined`, or
`Buffer.byteLength(undefined)`, raises. -/
def typeError : Exn := { message := lit "TypeError" }

/-- Source `getPageInfo`. -/
def getPageInfo (env : Env) (url : JSString) : Except Exn JSVal :=
  match request env url (some (lit "HEAD")) false with
  | Fetched.failed err => .ok (processError err)
  | Fetched.head response | Fetched.full response _ =>
    .ok (obj [("url", str url),
              ("content_type", header response "content-type"),
              ("content_length", contentLengthOr env response),
              ("http_code", num response.statusCode)])

/-- Source `getRawPage`. When `request` resolves to `{ response }` (method
`HEAD`), `content` is `undefined` and `Buffer.byteLength` raises. -/
def getRawPage (env : Env) (url : JSString) (requestMethod : Option JSString) :
    Except Exn JSVal :=
  match request env url requestMethod true with
  | Fetched.failed err => .ok (processError err)
  | Fetched.head _ => .error typeError
  | Fetched.full response content =>
    let contentLength := content.byteLength
    .ok (obj [("content", body content),
              ("contentType", header response "content-type"),
              ("contentLength", num contentLength)])

/-- Source `getPageContents`. -/
def getPageContents (env : Env) (url : JSString) (requestMethod : Option JSString) :
    Except Exn JSVal :=
  match request env url requestMethod false with
  | Fetched.failed err => .ok (processError err)
  | Fetched.head _ => .error typeError
  | Fetched.full response content =>
    let contentLength := content.byteLength
    .ok (obj [("contents", str content.text),
              ("status", obj [("url", str url),
                              ("content_type", header response "content-type"),
                              ("content_length", num contentLength),
                              ("http_code", num response.statusCode)])])

/-- Source `getStealthOptions`. -/
def getStealthOptions : LaunchOptions :=
  let args := [
    lit "--no-sandbox",
    lit "--disable-setuid-sandbox",
    lit "--disable-infobars",
    lit "--window-position=0,0",
    lit "--ignore-certifcate-errors",
    lit "--ignore-certifcate-errors-spki-list",
    lit "--user-agent=\"Mozilla/5.0 (Macintosh; Intel Mac OS X 10_12_6) AppleWebKit/537.36 (KHTML, like Gecko) Chrome/65.0.3312.0 Safari/537.36\""]
  { args := args, headless := true, ignoreHTTPSErrors := true, userDataDir := lit "./tmp" }

/-- Source `ignore`: the resource types whose requests are aborted. -/
def ignore : List JSString := [lit "media", lit "font", lit "image", lit "stylesheet"]

/-- The handler of the page's `request` event: `true` aborts the request,
`false` lets it continue. -/
def onRequest (resourceType : JSString) : Bool := ignore.contains resourceType

/-- Source `getFromNavigation`. The steps are awaited in order and the first
rejection ends the call; `fs.writeFile` is not awaited. -/
def getFromNavigation (s : Session) (url : JSString) (shouldLog : Bool) (w : World) :
    Except Exn JSString × World :=
  let options := getStealthOptions
  match s.launch options with
  | some e => (.error e, w)
  | none =>
    let w1 : World :=
      { w with now := w.now + s.elapsed, openBrowsers := w.openBrowsers + 1,
               launches := w.launches + 1 }
    match s.pages with
    | some e => (.error e, w1)
    | none =>
      match s.setRequestInterception with
      | some e => (.error e, w1)
      | none =>
        match s.setViewport with
        | some e => (.error e, w1)
        | none =>
          match s.goto url with
          | some e => (.error e, w1)
          | none =>
            match s.evaluate url with
            | .error e => (.error e, w1)
            | .ok data =>
              let w2 : World := if shouldLog then { w1 with lastLog := some data } else w1
              match s.close with
              | some e => (.error e, w2)
              | none => (.ok data, { w2 with openBrowsers := w2.openBrowsers - 1 })

/-- Source `getLastLog`: a failed read gives the sentinel text. -/
def getLastLog (w : World) : Except Exn JSVal × World :=
  match w.lastLog with
  | some data => (.ok (str data), w)
  | none => (.ok (str (lit "empty last log")), w)

/-- Source `getVilosMedia`. -/
def getVilosMedia (s : Session) (url : JSString) (shouldLog : Bool) (w : World) :
    Except Exn JSVal × World :=
  let (cached, w0) := crpCacheGet url w
  if cached.truthy && !shouldLog then (.ok cached, w0)
  else
    match getFromNavigation s url shouldLog w0 with
    | (.error e, w1) => (.error e, w1)
    | (.ok htmlPage, w1) =>
      if htmlPage.isEmpty then (.ok (str (lit "\"{}\"")), w1)
      else
        let startIndex := indexOf htmlPage (lit "config.media =")
        let initialConfig := substr htmlPage (startIndex + 15) none
        let endIndex := indexOf initialConfig (lit "\n\n")
        let config := substr initialConfig 0 (some (endIndex - 1))
        (.ok (str config), crpCacheSet url config w1)

/-- The argument of `getPage`. -/
structure Request where
  url : JSString
  format : Option JSString
  requestMethod : Option JSString
deriving DecidableEq, Repr

/-- Source `getPage`. -/
def getPage (env : Env) (req : Request) (w : World) : Except Exn JSVal × World :=
  if req.format = some (lit "info") ∨ req.requestMethod = some (lit "HEAD") then
    (getPageInfo env req.url, w)
  else if req.format = some (lit "raw") then
    (getRawPage env req.url req.requestMethod, w)
  else if req.format = some (lit "vilos") ∨ req.format = some (lit "viloslog") then
    getVilosMedia env.session req.url (decide (req.format = some (lit "viloslog"))) w
  else if req.format = some (lit "lastlog") then
    getLastLog w
  else
    (getPageContents env req.url req.requestMethod, w)

/-! ## Properties used in the statements, and sample collaborators -/

/-- The string `pat` occurs in `s` at offset `i` and at no smaller offset. -/
def FirstOccurrence (pat s : JSString) (i : Nat) : Prop :=
  pat <+: s.drop i ∧ ∀ j, j < i → ¬ pat <+: s.drop j

/-- The string `pat` occurs somewhere in `s`. -/
def Occurs (pat s : JSString) : Prop := ∃ j, pat <+: s.drop j

/-- Lines 88 to 92 of the source (`getVilosMedia`), as a function of `htmlPage`. -/
def extractConfig (htmlPage : JSString) : JSString :=
  let startIndex := indexOf htmlPage (lit "config.media =")
  let initialConfig := substr htmlPage (startIndex + 15) none
  let endIndex := indexOf initialConfig (lit "\n\n")
  substr initialConfig 0 (some (endIndex - 1))

/-- Whether the call resolved to an object that has the field `k`. -/
def resolvesWithField (r : Except Exn JSVal) (k : String) : Bool :=
  match r with
  | .ok v => v.hasField k
  | .error _ => false

/-- Time passes: the clock moves on by `dt` milliseconds. -/
def advance (dt : Nat) (w : World) : World := { w with now := w.now + dt }

/-- Whether the cache entry of `key`, if any, has expired at time `t`
(the test of `crpCache.get`). -/
def expiredAt (w : World) (key : JSString) (t : Nat) : Bool :=
  match w.crpCache.lookup key with
  | some entry => decide (entry.t ≠ 0 ∧ entry.t < t)
  | none => false

/-- The value that the cache holds for `key`, expired or not. -/
def cachedValue (w : World) (key : JSString) : Option JSString :=
  (w.crpCache.lookup key).map CacheEntry.v

/-- The session renders `url` without a failure and serializes it to `doc`. -/
def Session.renders (s : Session) (url doc : JSString) : Prop :=
  s.launch getStealthOptions = none ∧ s.pages = none ∧ s.setRequestInterception = none ∧
    s.setViewport = none ∧ s.goto url = none ∧ s.evaluate url = .ok doc ∧ s.close = none

/-- The world that a successful render of `doc` leaves behind. -/
def afterRender (s : Session) (shouldLog : Bool) (doc : JSString) (w : World) : World :=
  { now := w.now + s.elapsed,
    crpCache := w.crpCache,
    lastLog := if shouldLog then some doc else w.lastLog,
    openBrowsers := w.openBrowsers,
    launches := w.launches + 1 }

/-- A session whose steps all succeed, the page serializing to `doc`. -/
def sessionOf (doc : JSString) : Session :=
  { launch := fun _ => none, pages := none, setRequestInterception := none,
    setViewport := none, goto := fun _ => none, evaluate := fun _ => .ok doc,
    close := none, elapsed := 1000 }

/-- A session in which `puppeteer.launch` rejects. -/
def sessionLaunchFails : Session :=
  { launch := fun _ => some { message := lit "Failed to launch the browser process" },
    pages := none, setRequestInterception := none, setViewport := none,
    goto := fun _ => none, evaluate := fun _ => .ok [], close := none, elapsed := 1000 }

/-- A session in which `page.goto` rejects. -/
def sessionGotoFails : Session :=
  { launch := fun _ => none, pages := none, setRequestInterception := none,
    setViewport := none,
    goto := fun _ => some { message := lit "net::ERR_NAME_NOT_RESOLVED" },
    evaluate := fun _ => .ok [], close := none, elapsed := 1000 }

/-- Decimal reading of a header value, for the sample environments. -/
def toNumberDec : JSVal → Option Int
  | str s =>
    if s.all (fun c => decide (48 ≤ c ∧ c ≤ 57)) then
      some (s.foldl (fun acc c => acc * 10 + ((c : Int) - 48)) 0)
    else none
  | _ => none

/-- A sample environment: the client answers every request with `answer`. -/
def envOf (answer : Except HttpError Response) (s : Session) : Env :=
  { got := fun _ _ => answer, toNumber := toNumberDec, session := s }

/-- A world whose cache holds `old` for the url `u`, until time 36000000. -/
def worldWithOld : World :=
  { now := 0, crpCache := [(lit "u", { v := lit "old", t := 36000000 })],
    lastLog := none, openBrowsers := 0, launches := 0 }

/-- The world at start-up: nothing cached, no log file, no browser. -/
def emptyWorld : World :=
  { now := 0, crpCache := [], lastLog := none, openBrowsers := 0, launches := 0 }

/-- A connection failure: an error without a response. -/
def connectionError : HttpError :=
  { message := lit "getaddrinfo ENOTFOUND", response := none }

/-- A `404` response with a short body. -/
def notFoundResponse : Response :=
  { url := lit "http://a/", statusCode := 404,
    headers := [("content-type", lit "text/html")],
    body := { text := lit "gone", byteLength := 4 } }

/-- The HTTP-level failure that carries `notFoundResponse`. -/
def notFoundError : HttpError :=
  { message := lit "Response code 404 (Not Found)", response := some notFoundResponse }

/-- A `200` response with body `hello`. -/
def helloResponse : Response :=
  { url := lit "https://example.com", statusCode := 200,
    headers := [("content-type", lit "text/plain"), ("content-length", lit "5")],
    body := { text := lit "hello", byteLength := 5 } }

/-! ## String lemmas -/

theorem indexOfFrom_of_firstOccurrence (pat : JSString) :
    ∀ (s : JSString) (i k : Nat), FirstOccurrence pat s i →
      indexOfFrom pat s k = ((k + i : Nat) : Int) := by
  intro s
  induction s with
  | nil =>
    intro i k h
    obtain ⟨h1, h2⟩ := h
    have hp : pat = [] := by simpa using h1
    have hi : i = 0 := by
      by_contra hne
      exact h2 0 (Nat.pos_of_ne_zero hne) (by simp [hp])
    simp [indexOfFrom, hp, hi]
  | cons c cs ih =>
    intro i k h
    obtain ⟨h1, h2⟩ := h
    by_cases hpre : pat <+: c :: cs
    · have hi : i = 0 := by
        by_contra hne
        exact h2 0 (Nat.pos_of_ne_zero hne) (by simpa using hpre)
      have : pat.isPrefixOf (c :: cs) = true := by simpa using hpre
      simp [indexOfFrom, this, hi]
    · have hb : pat.isPrefixOf (c :: cs) = false := by
        rw [Bool.eq_false_iff]
        exact fun hh => hpre (List.isPrefixOf_iff_prefix.mp hh)
      cases i with
      | zero => exact absurd (by simpa using h1) hpre
      | succ n =>
        have hn : FirstOccurrence pat cs n := by
          refine ⟨by simpa using h1, fun j hj hpj => ?_⟩
          exact h2 (j + 1) (by omega) (by simpa using hpj)
        simp only [indexOfFrom, hb, Bool.false_eq_true, if_false]
        rw [ih n (k + 1) hn]
        congr 1
        omega

theorem indexOfFrom_of_absent (pat : JSString) :
    ∀ (s : JSString) (k : Nat), (∀ j, ¬ pat <+: s.drop j) → indexOfFrom pat s k = -1 := by
  intro s
  induction s with
  | nil =>
    intro k h
    have hp : pat ≠ [] := fun hp => h 0 (by simp [hp])
    simp [indexOfFrom, hp]
  | cons c cs ih =>
    intro k h
    have hb : pat.isPrefixOf (c :: cs) = false := by
      rw [Bool.eq_false_iff]
      exact fun hh => h 0 (by simpa using List.isPrefixOf_iff_prefix.mp hh)
    simp only [indexOfFrom, hb, Bool.false_eq_true, if_false]
    exact ih (k + 1) (fun j hj => h (j + 1) (by simpa using hj))

theorem indexOf_of_firstOccurrence {pat s : JSString} {i : Nat}
    (h : FirstOccurrence pat s i) : indexOf s pat = (i : Int) := by
  simp [indexOf, indexOfFrom_of_firstOccurrence pat s i 0 h]

theorem indexOf_of_absent {pat s : JSString} (h : ∀ j, ¬ pat <+: s.drop j) :
    indexOf s pat = -1 :=
  indexOfFrom_of_absent pat s 0 h

theorem substr_from (s : JSString) (n : Nat) : substr s (n : Int) none = s.drop n := by
  simp only [substr]
  have h0 : ¬ ((n : Int) < 0) := by omega
  simp only [h0, if_false]
  rcases Nat.le_total n s.length with h | h
  · have e1 : min (n : Int) (s.length : Int) = n := by omega
    have e2 : min ((n : Int) + s.length) (s.length : Int) = s.length := by omega
    rw [e1, e2]
    have e3 : ((s.length : Int) - n).toNat = s.length - n := by omega
    simp [e3]
  · have e1 : min (n : Int) (s.length : Int) = s.length := by omega
    have e2 : min ((s.length : Int) + s.length) (s.length : Int) = s.length := by omega
    rw [e1, e2]
    simp [List.drop_of_length_le h]

theorem substr_prefix (s : JSString) (l : Int) : substr s 0 (some l) = s.take l.toNat := by
  simp only [substr]
  have h0 : ¬ ((0 : Int) < 0) := by omega
  simp only [h0, if_false]
  have e1 : min (0 : Int) (s.length : Int) = 0 := by omega
  rw [e1]
  simp only [Int.toNat_zero, List.drop_zero, zero_add, sub_zero]
  have e2 : (min (min (max l 0) (s.length : Int)) (s.length : Int)).toNat
      = min l.toNat s.length := by omega
  rw [e2, ← List.take_take, List.take_length]

/-! ## The render session and the extraction -/

theorem getFromNavigation_of_renders {s : Session} {url doc : JSString} (shouldLog : Bool)
    (w : World) (h : s.renders url doc) :
    getFromNavigation s url shouldLog w = (.ok doc, afterRender s shouldLog doc w) := by
  obtain ⟨h1, h2, h3, h4, h5, h6, h7⟩ := h
  cases shouldLog <;> simp [getFromNavigation, afterRender, h1, h2, h3, h4, h5, h6, h7]

/-- On the render path, a non-empty document gives its extracted payload,
which is also stored in the cache. -/
theorem getVilosMedia_of_renders {s : Session} {url doc : JSString} {shouldLog : Bool}
    {w : World} (hpath : shouldLog = true ∨ (crpCacheGet url w).1.truthy = false)
    (hdoc : s.renders url doc) (hne : doc ≠ []) :
    getVilosMedia s url shouldLog w =
      (.ok (str (extractConfig doc)),
       crpCacheSet url (extractConfig doc)
         (afterRender s shouldLog doc (crpCacheGet url w).2)) := by
  have hc : ((crpCacheGet url w).1.truthy && !shouldLog) = false := by
    rcases hpath with h | h <;> simp [h]
  have he : doc.isEmpty = false := by
    cases doc with
    | nil => exact absurd rfl hne
    | cons a l => rfl
  unfold getVilosMedia
  simp only [hc, Bool.false_eq_true, if_false,
    getFromNavigation_of_renders shouldLog _ hdoc, he, extractConfig]

/-- On the render path, an empty document gives the sentinel and no cache write. -/
theorem getVilosMedia_of_renders_empty {s : Session} {url : JSString} {shouldLog : Bool}
    {w : World} (hpath : shouldLog = true ∨ (crpCacheGet url w).1.truthy = false)
    (hdoc : s.renders url []) :
    getVilosMedia s url shouldLog w =
      (.ok (str (lit "\"{}\"")), afterRender s shouldLog [] (crpCacheGet url w).2) := by
  have hc : ((crpCacheGet url w).1.truthy && !shouldLog) = false := by
    rcases hpath with h | h <;> simp [h]
  unfold getVilosMedia
  simp only [hc, Bool.false_eq_true, if_false,
    getFromNavigation_of_renders shouldLog _ hdoc, List.isEmpty_nil, if_true]

theorem firstOccurrence_of_occurs {pat s : JSString} (h : Occurs pat s) :
    ∃ i, FirstOccurrence pat s i := by
  classical
  exact ⟨Nat.find h, Nat.find_spec h, fun j hj => Nat.find_min h hj⟩

theorem not_occurs_of_indexOf {pat s : JSString} (h : indexOf s pat = -1) :
    ¬ Occurs pat s := by
  intro ho
  obtain ⟨i, hi⟩ := firstOccurrence_of_occurs ho
  rw [indexOf_of_firstOccurrence hi] at h
  omega

theorem extractConfig_of_start {doc : JSString} {n : Nat}
    (hn : indexOf doc (lit "config.media =") + 15 = (n : Int)) :
    (∀ e, FirstOccurrence (lit "\n\n") (doc.drop n) e →
      extractConfig doc = (doc.drop n).take (e - 1)) ∧
    (¬ Occurs (lit "\n\n") (doc.drop n) → extractConfig doc = []) := by
  constructor
  · intro e he
    simp only [extractConfig, hn, substr_from, indexOf_of_firstOccurrence he, substr_prefix]
    congr 1
    omega
  · intro hno
    have h1 : indexOf (doc.drop n) (lit "\n\n") = -1 :=
      indexOf_of_absent (fun j hj => hno ⟨j, hj⟩)
    simp [extractConfig, hn, substr_from, h1, substr_prefix]

theorem length_le_of_firstOccurrence {pat s : JSString} {i : Nat}
    (h : FirstOccurrence pat s i) : i + pat.length ≤ s.length ∨ pat = [] := by
  by_cases hp : pat = []
  · exact Or.inr hp
  · left
    have h1 := h.1.length_le
    rw [List.length_drop] at h1
    have h2 : 0 < pat.length := List.length_pos.mpr hp
    omega

/-- C2: on the render path, for a document that contains the marker
`config.media =`, first at index `i`, with `e` the index of the first
double newline in the text from offset `i + 15` on, `getVilosMedia` returns the
substring of the document that starts at offset `i + 15` and has length
`max 0 (e - 1)` (a document that contains the marker is not empty). -/
theorem getVilosMedia_payload (s : Session) (url doc : JSString) (shouldLog : Bool)
    (w : World) (i e : Nat)
    (hpath : shouldLog = true ∨ (crpCacheGet url w).1.truthy = false)
    (hdoc : s.renders url doc)
    (hi : FirstOccurrence (lit "config.media =") doc i)
    (he : FirstOccurrence (lit "\n\n") (doc.drop (i + 15)) e) :
    (getVilosMedia s url shouldLog w).1 = .ok (str ((doc.drop (i + 15)).take (e - 1))) ∧
      ((doc.drop (i + 15)).take (e - 1)).length = e - 1 := by
  have hne : doc ≠ [] := by
    intro h0
    have := hi.1.length_le
    rw [h0] at this
    simp [lit] at this
  have hn : indexOf doc (lit "config.media =") + 15 = ((i + 15 : Nat) : Int) := by
    rw [indexOf_of_firstOccurrence hi]
    push_cast
    rfl
  refine ⟨?_, ?_⟩
  · rw [getVilosMedia_of_renders hpath hdoc hne, (extractConfig_of_start hn).1 e he]
  · rcases length_le_of_firstOccurrence he with h | h
    · rw [List.length_take]
      omega
    · exact absurd h (by decide)

/-- On the render path, when the marker is first at index `i` and no double
newline follows offset `i + 15`, the payload is the empty string. -/
theorem getVilosMedia_payload_no_terminator (s : Session) (url doc : JSString)
    (shouldLog : Bool) (w : World) (i : Nat)
    (hpath : shouldLog = true ∨ (crpCacheGet url w).1.truthy = false)
    (hdoc : s.renders url doc)
    (hi : FirstOccurrence (lit "config.media =") doc i)
    (hno : ¬ Occurs (lit "\n\n") (doc.drop (i + 15))) :
    (getVilosMedia s url shouldLog w).1 = .ok (str []) := by
  have hne : doc ≠ [] := by
    intro h0
    have := hi.1.length_le
    rw [h0] at this
    simp [lit] at this
  have hn : indexOf doc (lit "config.media =") + 15 = ((i + 15 : Nat) : Int) := by
    rw [indexOf_of_firstOccurrence hi]
    push_cast
    rfl
  rw [getVilosMedia_of_renders hpath hdoc hne, (extractConfig_of_start hn).2 hno]

/-- A witness of C2: the document `config.media = {};` followed by a blank line
gives the payload `{}`. -/
theorem getVilosMedia_payload_witness :
    (getVilosMedia (sessionOf (lit "config.media = {};\n\n")) (lit "u") false emptyWorld).1
        = .ok (str (lit "{}")) ∧
      (lit "{}").length = 2 :=
  getVilosMedia_payload (sessionOf (lit "config.media = {};\n\n")) (lit "u")
    (lit "config.media = {};\n\n") false emptyWorld 0 3
    (Or.inr rfl) ⟨rfl, rfl, rfl, rfl, rfl, rfl, rfl⟩
    ⟨by decide, by decide⟩ ⟨by decide, by decide⟩

/-- C3, as stated, fails: a document without the marker is cut from offset 14
on, and the result is not the sentinel. -/
theorem getVilosMedia_marker_miss_counterexample :
    ¬ Occurs (lit "config.media =") (lit "0123456789abcdefgh\n\nrest") ∧
      (getVilosMedia (sessionOf (lit "0123456789abcdefgh\n\nrest")) (lit "u") false
          emptyWorld).1 = .ok (str (lit "efg")) ∧
      lit "efg" ≠ lit "\"{}\"" :=
  ⟨not_occurs_of_indexOf (by decide), rfl, by decide⟩

/-- C3, amended: on the render path an empty document gives the sentinel
`"{}"` with no substring taken and no cache write; a non-empty document
without the marker is not short-circuited: the not-found index `-1` makes the
payload start at offset 14, where it runs to one character before the first
double newline (it is empty when there is none), and no step fails. -/
theorem getVilosMedia_marker_miss (s : Session) (url doc : JSString) (shouldLog : Bool)
    (w : World)
    (hpath : shouldLog = true ∨ (crpCacheGet url w).1.truthy = false)
    (hdoc : s.renders url doc)
    (hmiss : ¬ Occurs (lit "config.media =") doc) :
    (doc = [] → getVilosMedia s url shouldLog w =
      (.ok (str (lit "\"{}\"")), afterRender s shouldLog doc (crpCacheGet url w).2)) ∧
    (doc ≠ [] →
      (∀ e, FirstOccurrence (lit "\n\n") (doc.drop 14) e →
        (getVilosMedia s url shouldLog w).1 = .ok (str ((doc.drop 14).take (e - 1)))) ∧
      (¬ Occurs (lit "\n\n") (doc.drop 14) →
        (getVilosMedia s url shouldLog w).1 = .ok (str []))) := by
  have hn : indexOf doc (lit "config.media =") + 15 = ((14 : Nat) : Int) := by
    rw [indexOf_of_absent (fun j hj => hmiss ⟨j, hj⟩)]
    rfl
  refine ⟨fun h0 => ?_, fun hne => ⟨fun e he => ?_, fun hno => ?_⟩⟩
  · subst h0
    exact getVilosMedia_of_renders_empty hpath hdoc
  · rw [getVilosMedia_of_renders hpath hdoc hne, (extractConfig_of_start hn).1 e he]
  · rw [getVilosMedia_of_renders hpath hdoc hne, (extractConfig_of_start hn).2 hno]

/-- A witness of the amended C3, at the empty document. -/
theorem getVilosMedia_marker_miss_witness :
    getVilosMedia (sessionOf []) (lit "u") false emptyWorld =
      (.ok (str (lit "\"{}\"")),
        afterRender (sessionOf []) false [] (crpCacheGet (lit "u") emptyWorld).2) :=
  (getVilosMedia_marker_miss (sessionOf []) (lit "u") [] false emptyWorld
    (Or.inr rfl) ⟨rfl, rfl, rfl, rfl, rfl, rfl, rfl⟩
    (not_occurs_of_indexOf (by decide))).1 rfl

/-! ## Transport errors -/

theorem request_ok {env : Env} {url : JSString} {requestMethod : Option JSString}
    {raw : Bool} {response : Response}
    (h : env.got url { method := requestMethod, decompress := !raw } = .ok response)
    (hm : requestMethod ≠ some (lit "HEAD")) :
    request env url requestMethod raw = Fetched.full response response.body := by
  simp [request, h, hm, processContent]

theorem request_failed {env : Env} {url : JSString} {requestMethod : Option JSString}
    {raw : Bool} {e : HttpError}
    (h : env.got url { method := requestMethod, decompress := !raw } = .error e) :
    request env url requestMethod raw = Fetched.failed e := by
  simp [request, h]

/-- C4: for an error that carries a response, `processError` gives the
envelope whose `contents` is the body as text, whose `status.http_code` is the
status code, whose `status.content_type` is the value that the headers of the
response hold under `content-type` (`undefined` when they hold none) and whose
`status.content_length` is the byte length of the body; its fields, and
those of its `status`, are the fields of the envelope that `getPageContents`
builds on success. -/
theorem processError_with_response (e : HttpError) (r : Response)
    (h : e.response = some r) :
    (processError e).get "contents" = str r.body.text ∧
    ((processError e).get "status").get "http_code" = num r.statusCode ∧
    ((∀ value, r.headers.lookup "content-type" = some value →
        ((processError e).get "status").get "content_type" = str value) ∧
      (r.headers.lookup "content-type" = none →
        ((processError e).get "status").get "content_type" = undefined)) ∧
    ((processError e).get "status").get "content_length" = num r.body.byteLength ∧
    (∀ (env : Env) (url : JSString) (requestMethod : Option JSString) (response : Response),
      env.got url { method := requestMethod, decompress := true } = .ok response →
      requestMethod ≠ some (lit "HEAD") →
      ∃ v, getPageContents env url requestMethod = .ok v ∧
        (processError e).keys.Perm v.keys ∧
        ((processError e).get "status").keys.Perm (v.get "status").keys) := by
  refine ⟨?_, ?_, ⟨fun value hv => ?_, fun hv => ?_⟩, ?_, ?_⟩
  · simp [processError, h, JSVal.get, List.lookup]
  · simp [processError, h, JSVal.get, List.lookup]
  · simp [processError, h, JSVal.get, List.lookup, header, hv]
  · simp [processError, h, JSVal.get, List.lookup, header, hv]
  · simp [processError, h, JSVal.get, List.lookup]
  · intro env url requestMethod response hg hm
    have hreq : request env url requestMethod false = Fetched.full response response.body :=
      request_ok (by simpa using hg) hm
    refine ⟨_, by simp only [getPageContents, hreq]; rfl, ?_, ?_⟩
    · simp [processError, h, JSVal.keys]
    · have hs : ("status" == "contents") = false := by decide
      simp only [processError, h, JSVal.get, JSVal.keys, List.lookup, hs, beq_self_eq_true,
        Option.getD_some, List.map]
      decide

/-- A witness of C4: the `404` error with body `gone`, of type `text/html`
and four bytes long. -/
theorem processError_with_response_witness :
    (processError notFoundError).get "contents" = str (lit "gone") ∧
    ((processError notFoundError).get "status").get "http_code" = num 404 ∧
    ((processError notFoundError).get "status").get "content_type" = str (lit "text/html") ∧
    ((processError notFoundError).get "status").get "content_length" = num 4 :=
  let h := processError_with_response notFoundError notFoundResponse rfl
  ⟨h.1, h.2.1, h.2.2.1.1 (lit "text/html") (by decide), h.2.2.2.1⟩

/-- C5: when the HTTP client raises an error that carries no response, each
of `getPageInfo`, `getRawPage` and `getPageContents` resolves to
`{ contents: null, status: { error } }`, the error being the one raised. -/
theorem connection_failure_envelope (env : Env) (url : JSString)
    (requestMethod : Option JSString) (e : HttpError) (h : e.response = none) :
    (env.got url { method := some (lit "HEAD"), decompress := true } = .error e →
      getPageInfo env url =
        .ok (obj [("contents", null), ("status", obj [("error", error e)])])) ∧
    (env.got url { method := requestMethod, decompress := false } = .error e →
      getRawPage env url requestMethod =
        .ok (obj [("contents", null), ("status", obj [("error", error e)])])) ∧
    (env.got url { method := requestMethod, decompress := true } = .error e →
      getPageContents env url requestMethod =
        .ok (obj [("contents", null), ("status", obj [("error", error e)])])) := by
  refine ⟨fun hg => ?_, fun hg => ?_, fun hg => ?_⟩
  · have hreq : request env url (some (lit "HEAD")) false = Fetched.failed e :=
      request_failed (by simpa using hg)
    simp only [getPageInfo, hreq, processError, h]
  · have hreq : request env url requestMethod true = Fetched.failed e :=
      request_failed (by simpa using hg)
    simp only [getRawPage, hreq, processError, h]
  · have hreq : request env url requestMethod false = Fetched.failed e :=
      request_failed (by simpa using hg)
    simp only [getPageContents, hreq, processError, h]

/-- A witness of C5: a client that fails every request with a connection error. -/
theorem connection_failure_envelope_witness :
    getPageContents (envOf (.error connectionError) (sessionOf [])) (lit "http://a/")
        (some (lit "GET")) =
      .ok (obj [("contents", null), ("status", obj [("error", error connectionError)])]) :=
  (connection_failure_envelope (envOf (.error connectionError) (sessionOf []))
    (lit "http://a/") (some (lit "GET")) connectionError rfl).2.2 rfl

theorem getPage_probe (env : Env) {req : Request} (w : World)
    (h : req.format = some (lit "info") ∨ req.requestMethod = some (lit "HEAD")) :
    getPage env req w = (getPageInfo env req.url, w) := by
  simp [getPage, h]

/-- C6, as stated, fails: an `info` request whose `HEAD` request meets a
connection failure resolves to an object that has the field `contents`. -/
theorem getPage_info_counterexample :
    resolvesWithField
      (getPage (envOf (.error connectionError) (sessionOf []))
        { url := lit "http://a/", format := some (lit "info"),
          requestMethod := some (lit "GET") } emptyWorld).1 "contents" = true := by
  decide

/-- C6, amended: for a request with format `info` or method `HEAD`, when the
`HEAD` request succeeds the result is the object with the fields `url`,
`content_type`, `content_length` and `http_code`, which has neither `contents`
nor `content`; when it fails the result is the envelope of `processError`,
which has the field `contents` (and no `content`). -/
theorem getPage_info_fields (env : Env) (req : Request) (w : World)
    (h : req.format = some (lit "info") ∨ req.requestMethod = some (lit "HEAD")) :
    (∀ response,
      env.got req.url { method := some (lit "HEAD"), decompress := true } = .ok response →
      ∃ v, (getPage env req w).1 = .ok v ∧
        v.keys = ["url", "content_type", "content_length", "http_code"] ∧
        v.hasField "contents" = false ∧ v.hasField "content" = false) ∧
    (∀ e,
      env.got req.url { method := some (lit "HEAD"), decompress := true } = .error e →
      (getPage env req w).1 = .ok (processError e) ∧
        (processError e).hasField "contents" = true ∧
        (processError e).hasField "content" = false) := by
  have hroute := getPage_probe env w h
  refine ⟨fun response hg => ?_, fun e hg => ?_⟩
  · have hreq : request env req.url (some (lit "HEAD")) false = Fetched.head response := by
      simp [request, hg]
    refine ⟨_, by rw [hroute]; simp only [getPageInfo, hreq]; rfl, ?_, ?_, ?_⟩
    · simp [JSVal.keys]
    · simp only [JSVal.hasField, JSVal.keys, List.map]
      decide
    · simp only [JSVal.hasField, JSVal.keys, List.map]
      decide
  · have hreq : request env req.url (some (lit "HEAD")) false = Fetched.failed e :=
      request_failed (by simpa using hg)
    refine ⟨by rw [hroute]; simp only [getPageInfo, hreq], ?_, ?_⟩
    · cases hr : e.response <;>
        (simp only [processError, hr, JSVal.hasField, JSVal.keys, List.map]; decide)
    · cases hr : e.response <;>
        (simp only [processError, hr, JSVal.hasField, JSVal.keys, List.map]; decide)

/-- A witness of the amended C6: a `HEAD` request with format `raw` that is
answered `200`. -/
theorem getPage_info_fields_witness :
    ∃ v, (getPage (envOf (.ok helloResponse) (sessionOf []))
        { url := lit "https://example.com", format := some (lit "raw"),
          requestMethod := some (lit "HEAD") } emptyWorld).1 = .ok v ∧
      v.keys = ["url", "content_type", "content_length", "http_code"] ∧
      v.hasField "contents" = false ∧ v.hasField "content" = false :=
  (getPage_info_fields (envOf (.ok helloResponse) (sessionOf []))
    { url := lit "https://example.com", format := some (lit "raw"),
      requestMethod := some (lit "HEAD") } emptyWorld (Or.inr rfl)).1 helloResponse rfl

/-! ## The cache -/

theorem getVilosMedia_hit {s : Session} {url : JSString} {w : World} {entry : CacheEntry}
    (hl : w.crpCache.lookup url = some entry)
    (hx : ¬ (entry.t ≠ 0 ∧ entry.t < w.now)) (hv : entry.v ≠ []) :
    getVilosMedia s url false w = (.ok (str entry.v), w) := by
  have hg : crpCacheGet url w = (str entry.v, w) := by
    simp only [crpCacheGet, hl, hx, if_false]
  have ht : (str entry.v).truthy = true := by
    cases hv' : entry.v with
    | nil => exact absurd hv' hv
    | cons a l => rfl
  unfold getVilosMedia
  simp only [hg, ht, Bool.not_false, Bool.and_self, if_true]

theorem lookup_crpCacheSet (url value : JSString) (w : World) :
    (crpCacheSet url value w).crpCache.lookup url =
      some { v := value, t := w.now + stdTTL * 1000 } := by
  simp [crpCacheSet, List.lookup]

theorem truthy_crpCacheGet {url : JSString} {w : World}
    (h : (crpCacheGet url w).1.truthy = true) :
    ∃ entry, w.crpCache.lookup url = some entry ∧ ¬ (entry.t ≠ 0 ∧ entry.t < w.now) ∧
      entry.v ≠ [] ∧ crpCacheGet url w = (str entry.v, w) := by
  unfold crpCacheGet at h ⊢
  cases hl : w.crpCache.lookup url with
  | none => simp [hl, JSVal.truthy] at h
  | some entry =>
    by_cases hx : entry.t ≠ 0 ∧ entry.t < w.now
    · simp [hl, hx, JSVal.truthy] at h
    · refine ⟨entry, rfl, hx, ?_, by simp only [hx, if_false]⟩
      intro hv
      simp [hl, hx, JSVal.truthy, hv] at h

theorem launches_crpCacheGet (url : JSString) (w : World) :
    (crpCacheGet url w).2.launches = w.launches := by
  unfold crpCacheGet
  cases w.crpCache.lookup url with
  | none => rfl
  | some entry => by_cases hx : entry.t ≠ 0 ∧ entry.t < w.now <;> simp [hx]

/-- C7, as stated, fails. First, a document whose payload is empty (no double
newline after the marker): the empty string is cached, the second call finds it
falsy, launches a second browser and returns what that one renders. Second, an
empty document: the first call returns the sentinel and caches nothing, and
the second call renders again. -/
theorem getVilosMedia_twice_counterexample :
    (getVilosMedia (sessionOf (lit "config.media = {}")) (lit "u") false emptyWorld).1
        = .ok (str []) ∧
      cachedValue
        (getVilosMedia (sessionOf (lit "config.media = {}")) (lit "u") false emptyWorld).2
        (lit "u") = some [] ∧
      (getVilosMedia (sessionOf (lit "config.media = {};\n\n")) (lit "u") false
        (getVilosMedia (sessionOf (lit "config.media = {}")) (lit "u") false emptyWorld).2).1
        = .ok (str (lit "{}")) ∧
      (getVilosMedia (sessionOf (lit "config.media = {};\n\n")) (lit "u") false
        (getVilosMedia (sessionOf (lit "config.media = {}")) (lit "u") false emptyWorld).2).2.launches
        = 2 ∧
      (getVilosMedia (sessionOf []) (lit "u") false emptyWorld).1
        = .ok (str (lit "\"{}\"")) ∧
      cachedValue (getVilosMedia (sessionOf []) (lit "u") false emptyWorld).2 (lit "u")
        = none ∧
      (getVilosMedia (sessionOf (lit "config.media = {};\n\n")) (lit "u") false
        (getVilosMedia (sessionOf []) (lit "u") false emptyWorld).2).2.launches = 2 :=
  ⟨rfl, by decide, rfl, by decide, rfl, by decide, by decide⟩

/-- C7, amended: when the rendered document is not empty and its payload is
not the empty string, a completed `getVilosMedia(U, false)` call returns a
string that the cache then holds for `U`, and a second `getVilosMedia(U, false)`
call made before that entry expires returns the same string and leaves the
world as it is: no browser is launched, whatever the session would do. -/
theorem getVilosMedia_twice (s1 s2 : Session) (url doc : JSString) (w : World) (dt : Nat)
    (hdoc : s1.renders url doc) (hne : doc ≠ []) (hpay : extractConfig doc ≠ [])
    (hfresh : expiredAt (getVilosMedia s1 url false w).2 url
      ((getVilosMedia s1 url false w).2.now + dt) = false) :
    ∃ v, (getVilosMedia s1 url false w).1 = .ok (str v) ∧
      cachedValue (getVilosMedia s1 url false w).2 url = some v ∧
      getVilosMedia s2 url false (advance dt (getVilosMedia s1 url false w).2) =
        (.ok (str v), advance dt (getVilosMedia s1 url false w).2) := by
  cases hc : (crpCacheGet url w).1.truthy with
  | true =>
    obtain ⟨entry, hl, hx, hv, -⟩ := truthy_crpCacheGet hc
    have h1 : getVilosMedia s1 url false w = (.ok (str entry.v), w) :=
      getVilosMedia_hit hl hx hv
    rw [h1] at hfresh ⊢
    refine ⟨entry.v, rfl, by simp [cachedValue, hl], ?_⟩
    have hl2 : (advance dt w).crpCache.lookup url = some entry := hl
    have hx2 : ¬ (entry.t ≠ 0 ∧ entry.t < (advance dt w).now) := by
      simp only [expiredAt, hl] at hfresh
      exact of_decide_eq_false hfresh
    exact getVilosMedia_hit hl2 hx2 hv
  | false =>
    have h1 := @getVilosMedia_of_renders s1 url doc false w (Or.inr hc) hdoc hne
    rw [h1] at hfresh ⊢
    refine ⟨extractConfig doc, rfl, by simp [cachedValue, lookup_crpCacheSet], ?_⟩
    have hl2 := lookup_crpCacheSet url (extractConfig doc)
      (afterRender s1 false doc (crpCacheGet url w).2)
    have hx2 : ¬ ((afterRender s1 false doc (crpCacheGet url w).2).now + stdTTL * 1000 ≠ 0 ∧
        (afterRender s1 false doc (crpCacheGet url w).2).now + stdTTL * 1000 <
          (advance dt (crpCacheSet url (extractConfig doc)
            (afterRender s1 false doc (crpCacheGet url w).2))).now) := by
      simp only [expiredAt, hl2] at hfresh
      exact of_decide_eq_false hfresh
    exact @getVilosMedia_hit s2 url _ ⟨extractConfig doc, _⟩ hl2 hx2 hpay

/-- A witness of the amended C7: the document `config.media = {};` followed by
a blank line, then a second call whose session could not even launch. -/
theorem getVilosMedia_twice_witness :
    ∃ v, (getVilosMedia (sessionOf (lit "config.media = {};\n\n")) (lit "u") false
        emptyWorld).1 = .ok (str v) ∧
      cachedValue (getVilosMedia (sessionOf (lit "config.media = {};\n\n")) (lit "u") false
        emptyWorld).2 (lit "u") = some v ∧
      getVilosMedia sessionLaunchFails (lit "u") false
          (advance 0 (getVilosMedia (sessionOf (lit "config.media = {};\n\n")) (lit "u")
            false emptyWorld).2) =
        (.ok (str v), advance 0 (getVilosMedia (sessionOf (lit "config.media = {};\n\n"))
          (lit "u") false emptyWorld).2) :=
  getVilosMedia_twice (sessionOf (lit "config.media = {};\n\n")) sessionLaunchFails (lit "u")
    (lit "config.media = {};\n\n") emptyWorld 0 ⟨rfl, rfl, rfl, rfl, rfl, rfl, rfl⟩
    (by decide) (by decide) (by decide)

/-- C8, as stated, fails. First, an empty document: the `viloslog` call
returns the sentinel and leaves the old cache entry, which the next `vilos`
call returns. Second, a document whose payload is empty: the entry is the
empty string, and the next `vilos` call renders again. -/
theorem getVilosMedia_log_counterexample :
    (getVilosMedia (sessionOf []) (lit "u") true worldWithOld).1
        = .ok (str (lit "\"{}\"")) ∧
      cachedValue (getVilosMedia (sessionOf []) (lit "u") true worldWithOld).2 (lit "u")
        = some (lit "old") ∧
      (getVilosMedia (sessionOf []) (lit "u") false
        (getVilosMedia (sessionOf []) (lit "u") true worldWithOld).2).1
        = .ok (str (lit "old")) ∧
      lit "old" ≠ lit "\"{}\"" ∧
      (getVilosMedia (sessionOf (lit "config.media = {}")) (lit "u") true emptyWorld).1
        = .ok (str []) ∧
      (getVilosMedia (sessionOf (lit "config.media = {};\n\n")) (lit "u") false
        (getVilosMedia (sessionOf (lit "config.media = {}")) (lit "u") true emptyWorld).2).1
        = .ok (str (lit "{}")) ∧
      (getVilosMedia (sessionOf (lit "config.media = {};\n\n")) (lit "u") false
        (getVilosMedia (sessionOf (lit "config.media = {}")) (lit "u") true emptyWorld).2).2.launches
        = 2 :=
  ⟨rfl, by decide, rfl, by decide, rfl, rfl, by decide⟩

/-- C8, amended: a completed `getVilosMedia(U, true)` call launches a browser
whatever the cache holds; when the rendered document is not empty, the call
returns its payload and leaves that payload as the cache entry of `U`; and
when moreover the payload is not the empty string, a `vilos` call for `U` made
within the time to live returns it without a launch, whatever the session would
do. -/
theorem getVilosMedia_log_refreshes (s1 s2 : Session) (url doc : JSString) (w : World)
    (dt : Nat) (hdoc : s1.renders url doc) :
    (getVilosMedia s1 url true w).2.launches = w.launches + 1 ∧
    (doc ≠ [] →
      (getVilosMedia s1 url true w).1 = .ok (str (extractConfig doc)) ∧
      cachedValue (getVilosMedia s1 url true w).2 url = some (extractConfig doc) ∧
      (extractConfig doc ≠ [] → dt ≤ stdTTL * 1000 →
        getVilosMedia s2 url false (advance dt (getVilosMedia s1 url true w).2) =
          (.ok (str (extractConfig doc)), advance dt (getVilosMedia s1 url true w).2))) := by
  constructor
  · by_cases hne : doc = []
    · subst hne
      rw [getVilosMedia_of_renders_empty (Or.inl rfl) hdoc]
      simp [afterRender, launches_crpCacheGet]
    · rw [getVilosMedia_of_renders (Or.inl rfl) hdoc hne]
      simp [crpCacheSet, afterRender, launches_crpCacheGet]
  · intro hne
    rw [getVilosMedia_of_renders (Or.inl rfl) hdoc hne]
    refine ⟨rfl, by simp [cachedValue, lookup_crpCacheSet], fun hpay hdt => ?_⟩
    have hl2 := lookup_crpCacheSet url (extractConfig doc)
      (afterRender s1 true doc (crpCacheGet url w).2)
    refine @getVilosMedia_hit s2 url _ ⟨extractConfig doc, _⟩ hl2 ?_ hpay
    simp only [advance, crpCacheSet]
    omega

/-- A witness of the amended C8: a `viloslog` call over an old cache entry,
then a `vilos` call whose session could not even launch. -/
theorem getVilosMedia_log_refreshes_witness :
    getVilosMedia sessionLaunchFails (lit "u") false
        (advance 0 (getVilosMedia (sessionOf (lit "config.media = {};\n\n")) (lit "u") true
          worldWithOld).2) =
      (.ok (str (extractConfig (lit "config.media = {};\n\n"))),
        advance 0 (getVilosMedia (sessionOf (lit "config.media = {};\n\n")) (lit "u") true
          worldWithOld).2) :=
  ((getVilosMedia_log_refreshes (sessionOf (lit "config.media = {};\n\n")) sessionLaunchFails
    (lit "u") (lit "config.media = {};\n\n") worldWithOld 0
    ⟨rfl, rfl, rfl, rfl, rfl, rfl, rfl⟩).2 (by decide)).2.2 (by decide) (by decide)

/-! ## Failures of the render session -/

/-- C9, at a failing launch and at a failing navigation: the promise of
`getPage` rejects with the error of the browser, where the claim has the
sentinel `"{}"`. -/
theorem getPage_vilos_failure :
    getPage (envOf (.ok helloResponse) sessionLaunchFails)
        { url := lit "https://example.com", format := some (lit "vilos"),
          requestMethod := some (lit "GET") } emptyWorld =
      (.error { message := lit "Failed to launch the browser process" }, emptyWorld) ∧
    (getPage (envOf (.ok helloResponse) sessionGotoFails)
        { url := lit "https://example.com", format := some (lit "viloslog"),
          requestMethod := some (lit "GET") } emptyWorld).1 =
      .error { message := lit "net::ERR_NAME_NOT_RESOLVED" } :=
  ⟨rfl, rfl⟩

/-- C10, at a failing navigation: `getFromNavigation` rejects and the browser
that it launched is still open, where the claim has it closed. -/
theorem getFromNavigation_goto_failure :
    (getFromNavigation sessionGotoFails (lit "https://example.com") false emptyWorld).1 =
      .error { message := lit "net::ERR_NAME_NOT_RESOLVED" } ∧
    (getFromNavigation sessionGotoFails (lit "https://example.com") false
      emptyWorld).2.openBrowsers = 1 ∧
    emptyWorld.openBrowsers = 0 :=
  ⟨rfl, rfl, rfl⟩

/-! ## Routing -/

/-- C1: `getPage` delegates to one strategy, chosen by the first rule that
matches: format `info` or method `HEAD` gives `getPageInfo(url)` (whatever the
format of a `HEAD` request); otherwise format `raw` gives
`getRawPage(url, requestMethod)`; otherwise `vilos` and `viloslog` give
`getVilosMedia(url, format === 'viloslog')`; otherwise `lastlog` gives
`getLastLog()`; every other request gives `getPageContents(url, requestMethod)`. -/
theorem getPage_routes (env : Env) (req : Request) (w : World) :
    (req.format = some (lit "info") ∨ req.requestMethod = some (lit "HEAD") →
      getPage env req w = (getPageInfo env req.url, w)) ∧
    (req.requestMethod ≠ some (lit "HEAD") →
      (req.format = some (lit "raw") →
        getPage env req w = (getRawPage env req.url req.requestMethod, w)) ∧
      (req.format = some (lit "vilos") →
        getPage env req w = getVilosMedia env.session req.url false w) ∧
      (req.format = some (lit "viloslog") →
        getPage env req w = getVilosMedia env.session req.url true w) ∧
      (req.format = some (lit "lastlog") →
        getPage env req w = getLastLog w) ∧
      (req.format ≠ some (lit "info") → req.format ≠ some (lit "raw") →
        req.format ≠ some (lit "vilos") → req.format ≠ some (lit "viloslog") →
        req.format ≠ some (lit "lastlog") →
        getPage env req w = (getPageContents env req.url req.requestMethod, w))) := by
  refine ⟨fun h => ?_, fun hm => ⟨fun h => ?_, fun h => ?_, fun h => ?_, fun h => ?_, ?_⟩⟩
  · simp [getPage, h]
  · have : lit "raw" ≠ lit "info" := by decide
    simp [getPage, h, hm, this]
  · have h1 : lit "vilos" ≠ lit "info" := by decide
    have h2 : lit "vilos" ≠ lit "raw" := by decide
    have h3 : lit "vilos" ≠ lit "viloslog" := by decide
    simp [getPage, h, hm, h1, h2, h3]
  · have h1 : lit "viloslog" ≠ lit "info" := by decide
    have h2 : lit "viloslog" ≠ lit "raw" := by decide
    simp [getPage, h, hm, h1, h2]
  · have h1 : lit "lastlog" ≠ lit "info" := by decide
    have h2 : lit "lastlog" ≠ lit "raw" := by decide
    have h3 : lit "lastlog" ≠ lit "vilos" := by decide
    have h4 : lit "lastlog" ≠ lit "viloslog" := by decide
    simp [getPage, h, hm, h1, h2, h3, h4]
  · intro h1 h2 h3 h4 h5
    simp [getPage, hm, h1, h2, h3, h4, h5]

/-- An instance of C1: a `HEAD` request with format `raw` goes to `getPageInfo`,
and a `GET` request with format `viloslog` to `getVilosMedia(url, true)`. -/
theorem getPage_routes_witness :
    getPage (envOf (.ok helloResponse) (sessionOf []))
        { url := lit "https://example.com", format := some (lit "raw"),
          requestMethod := some (lit "HEAD") } emptyWorld =
      (getPageInfo (envOf (.ok helloResponse) (sessionOf [])) (lit "https://example.com"),
        emptyWorld) ∧
    getPage (envOf (.ok helloResponse) (sessionOf []))
        { url := lit "https://example.com", format := some (lit "viloslog"),
          requestMethod := some (lit "GET") } emptyWorld =
      getVilosMedia (sessionOf []) (lit "https://example.com") true emptyWorld :=
  ⟨(getPage_routes (envOf (.ok helloResponse) (sessionOf []))
      { url := lit "https://example.com", format := some (lit "raw"),
        requestMethod := some (lit "HEAD") } emptyWorld).1 (Or.inr rfl),
   ((getPage_routes (envOf (.ok helloResponse) (sessionOf []))
      { url := lit "https://example.com", format := some (lit "viloslog"),
        requestMethod := some (lit "GET") } emptyWorld).2 (by decide)).2.2.1 rfl⟩

end GetPage
